import Mathlib

/-!
# Verification of the movie recommendation engine

Shallow embedding of `src/services/recommendations.ts` from the
movierecommendation repository.  Numbers (JS doubles) are modelled as `ℚ`;
`Math.log` is an explicit function parameter `log : ℚ → ℚ` since no claim
depends on its concrete values; `JSON.parse` is an explicit parameter
`parse : String → Except String SnapData`; JS exceptions are modelled with
`Except String`; the external services (database, TMDB catalog) and the
randomized `Array.prototype.sort` outcome are fields of an `Env` record.
-/

set_option autoImplicit false
set_option maxRecDepth 100000

deriving instance DecidableEq for Except

namespace MovieRec

/-- A catalog movie (`Movie` of `@/types/movie`), restricted to the fields the
recommendation engine reads.  `release_date` is modelled as the year that
`new Date(movie.release_date).getFullYear()` would yield, with `none` for a
missing/empty (falsy) date string. -/
structure Movie where
  id : Int
  title : String
  genre_ids : List Int
  vote_average : ℚ
  vote_count : ℚ
  popularity : ℚ
  release_date : Option Int
  deriving Repr, DecidableEq

/-- The denormalized movie snapshot stored on a rating (`movie_data` after
JSON decoding), restricted to the fields read by `buildTasteProfile` and
`calculateMovieScore`.  `none` models an absent field. -/
structure SnapData where
  keywords : Option (List String)
  director : Option String
  actors : Option (List String)
  production_company : Option String
  genre_ids : Option (List Int)
  deriving Repr, DecidableEq

/-- The empty snapshot record `{}`. -/
def SnapData.empty : SnapData :=
  { keywords := none, director := none, actors := none,
    production_company := none, genre_ids := none }

/-- `movie_data` as stored: either a raw object or a serialized string
(`movie_data?: string | any` in `database.ts`). -/
inductive MovieData where
  | obj (d : SnapData)
  | str (s : String)
  deriving Repr, DecidableEq

/-- A stored user rating (`UserRating` of `database.ts`), restricted to the
fields the engine reads. -/
structure Rating where
  movie_id : Int
  rating : Int
  movie_data : Option MovieData
  deriving Repr, DecidableEq

/-- The snapshot-normalization expression used in `buildTasteProfile`,
`calculateMovieScore` and `getSimilarToLiked`:
`md ? (typeof md === 'string' ? JSON.parse(md) : md) : {}`.
A present empty string is falsy in JS, hence also yields `{}`.
`JSON.parse` may throw, which the `Except` propagates. -/
def getSnapData (parse : String → Except String SnapData) :
    Option MovieData → Except String SnapData
  | none => .ok SnapData.empty
  | some (.obj d) => .ok d
  | some (.str s) => if s = "" then .ok SnapData.empty else parse s

/-- A JS `Map<string, number>` as an insertion-ordered association list. -/
abbrev StrMap := List (String × Nat)

/-- `map.get(k) || 0`. -/
def StrMap.get (m : StrMap) (k : String) : Nat :=
  match List.find? (fun p => p.1 = k) m with
  | some p => p.2
  | none => 0

/-- `map.set(k, v)`: updates in place if the key is present, otherwise
appends (JS `Map` keeps first-insertion order). -/
def StrMap.set (m : StrMap) (k : String) (v : Nat) : StrMap :=
  if (List.any m (fun p => p.1 = k)) then
    List.map (fun p => if p.1 = k then (k, v) else p) m
  else
    m ++ [(k, v)]

/-- Increment the count of `k`, as `map.set(k, (map.get(k) || 0) + 1)`. -/
def StrMap.incr (m : StrMap) (k : String) : StrMap :=
  m.set k (m.get k + 1)

/-- `TasteProfile` of `recommendations.ts`: four frequency maps. -/
structure TasteProfile where
  favoriteKeywords : StrMap
  favoriteDirectors : StrMap
  favoriteActors : StrMap
  favoriteStudios : StrMap
  deriving DecidableEq

/-- The initial profile with four empty maps. -/
def TasteProfile.empty : TasteProfile :=
  { favoriteKeywords := [], favoriteDirectors := [],
    favoriteActors := [], favoriteStudios := [] }

/-- One iteration of the `for (const movie of likedMovies)` loop body of
`buildTasteProfile`, given the already-normalized snapshot `data`.  The JS
truthiness tests become: `isSome` for the array-valued fields, and
"present and non-empty" for the string-valued fields. -/
def accumulateSnap (profile : TasteProfile) (data : SnapData) : TasteProfile :=
  let profile :=
    match data.keywords with
    | some ks => { profile with
        favoriteKeywords := List.foldl StrMap.incr profile.favoriteKeywords ks }
    | none => profile
  let profile :=
    match data.director with
    | some d => if d = "" then profile else
        { profile with favoriteDirectors := profile.favoriteDirectors.incr d }
    | none => profile
  let profile :=
    match data.actors with
    | some as_ => { profile with
        favoriteActors := List.foldl StrMap.incr profile.favoriteActors as_ }
    | none => profile
  match data.production_company with
  | some c => if c = "" then profile else
      { profile with favoriteStudios := profile.favoriteStudios.incr c }
  | none => profile

/-- The `for (const movie of likedMovies)` loop of `buildTasteProfile`:
snapshot normalization (which may throw) followed by count accumulation. -/
def accumulateLiked (parse : String → Except String SnapData) :
    TasteProfile → List Rating → Except String TasteProfile
  | profile, [] => .ok profile
  | profile, movie :: rest =>
      match getSnapData parse movie.movie_data with
      | .error e => .error e
      | .ok data => accumulateLiked parse (accumulateSnap profile data) rest

/-- `buildTasteProfile(ratedMovies)`: filters the liked ratings and folds the
accumulation loop over them, starting from four empty maps.  A `JSON.parse`
failure inside the loop propagates (the source has no local try/catch). -/
def buildTasteProfile (parse : String → Except String SnapData)
    (ratedMovies : List Rating) : Except String TasteProfile :=
  accumulateLiked parse TasteProfile.empty
    (List.filter (fun r => r.rating = 1) ratedMovies)

/-- JS `Math.min` on two numbers. -/
def jsMin (a b : ℚ) : ℚ := if a ≤ b then a else b

/-- JS `Math.max` on two numbers. -/
def jsMax (a b : ℚ) : ℚ := if a ≤ b then b else a

/-- The `age`-dependent branch ladder of `calculateMovieScore`
(lines 309–323): category and bonus from `movieAge`.  Note the source's
second branch tests `movieAge > 10 && movieAge < 40` (strict on both
sides). -/
def ageCategoryAndBonus (movieAge : Int) : String × ℚ :=
  if movieAge > 40 then ("Classic", 20)
  else if movieAge > 10 ∧ movieAge < 40 then ("Modern Classic", 15)
  else if movieAge > 5 ∧ movieAge ≤ 10 then ("Recent Hit", 10)
  else ("Recent", 0)

/-- The `for (const disliked of dislikedMovies)` loop of
`calculateMovieScore`: per disliked movie, normalize its snapshot (which may
throw) and, when the snapshot has a `genre_ids` field (any array is truthy),
subtract `15 × (shared genre count)` from the running score. -/
def applyDislikePenalties (parse : String → Except String SnapData)
    (movie : Movie) : ℚ → List Rating → Except String ℚ
  | score, [] => .ok score
  | score, disliked :: rest =>
      match getSnapData parse disliked.movie_data with
      | .error e => .error e
      | .ok dislikedData =>
          let score :=
            match dislikedData.genre_ids with
            | some gs =>
                score - (List.filter (fun id => gs.contains id) movie.genre_ids).length * 15
            | none => score
          applyDislikePenalties parse movie score rest

/-- The intermediate components returned by `calculateMovieScore` (the
source's return statement carries exactly these four fields). -/
structure ScoreData where
  score : ℚ
  genreMatchCount : Nat
  ageCategory : String
  qualityScore : ℚ
  deriving Repr, DecidableEq

/-- `calculateMovieScore(movie, favoriteGenres, ratedMovies, tasteProfile)`.
`log` models `Math.log`, `currentYear` models `new Date().getFullYear()`;
a missing (falsy) `release_date` yields `releaseYear = 0`.  The
`tasteProfile` argument is passed but never read, as in the source. -/
def calculateMovieScore (log : ℚ → ℚ) (parse : String → Except String SnapData)
    (currentYear : Int) (movie : Movie) (favoriteGenres : List Int)
    (ratedMovies : List Rating) (_tasteProfile : TasteProfile) :
    Except String ScoreData :=
  let genreMatches := List.filter (fun id => favoriteGenres.contains id) movie.genre_ids
  let genreMatchCount := genreMatches.length
  let score : ℚ := genreMatchCount * 100
  let qualityScore := movie.vote_average * 15
  let score := score + qualityScore
  let voteCountScore := jsMin (log (movie.vote_count + 1) * 3) 30
  let score := score + voteCountScore
  let popularityScore := jsMin (log (movie.popularity + 1) * 2) 20
  let score := score + popularityScore
  let releaseYear := match movie.release_date with | some y => y | none => 0
  let movieAge := currentYear - releaseYear
  let ac := ageCategoryAndBonus movieAge
  let score := score + ac.2
  let dislikedMovies := List.filter (fun r => r.rating = -1) ratedMovies
  match applyDislikePenalties parse movie score dislikedMovies with
  | .error e => .error e
  | .ok score =>
      .ok { score := score, genreMatchCount := genreMatchCount,
            ageCategory := ac.1, qualityScore := qualityScore }

/-- The `GENRE_NAMES` table of `recommendations.ts`. -/
def GENRE_NAMES (id : Int) : Option String :=
  if id = 28 then some "Action" else if id = 12 then some "Adventure"
  else if id = 16 then some "Animation" else if id = 35 then some "Comedy"
  else if id = 80 then some "Crime" else if id = 99 then some "Documentary"
  else if id = 18 then some "Drama" else if id = 10751 then some "Family"
  else if id = 14 then some "Fantasy" else if id = 36 then some "History"
  else if id = 27 then some "Horror" else if id = 10402 then some "Music"
  else if id = 9648 then some "Mystery" else if id = 10749 then some "Romance"
  else if id = 878 then some "Science Fiction" else if id = 10770 then some "TV Movie"
  else if id = 53 then some "Thriller" else if id = 10752 then some "War"
  else if id = 37 then some "Western" else none

/-- `GENRE_NAMES[id] || 'Unknown'`. -/
def genreName (id : Int) : String := (GENRE_NAMES id).getD "Unknown"

/-- JS `Math.round`: round half toward positive infinity. -/
def jsRound (q : ℚ) : Int := Int.floor (q + 1/2)

/-- JS `Number.prototype.toFixed(1)` on a rational, used only to format the
quality reason string. -/
def jsToFixed1 (q : ℚ) : String :=
  let n : Int := Int.floor (q * 10 + 1/2)
  let sign := if n < 0 then "-" else ""
  let a := n.natAbs
  sign ++ toString (a / 10) ++ "." ++ toString (a % 10)

/-- `MatchBreakdown` of `@/types/movie` as populated by
`createMatchBreakdown`. -/
structure MatchBreakdown where
  percentage : Int
  genreMatches : Nat
  genreMatchNames : List String
  qualityScore : ℚ
  ageCategory : String
  totalLikedMovies : Nat
  reasons : List String
  deriving Repr, DecidableEq

/-- `createMatchBreakdown(movie, percentage, scoreData, favoriteGenres,
totalLikedMovies)`: rounds the clamped percentage and assembles the reason
list in source order, with the generic fallback when no condition fires. -/
def createMatchBreakdown (movie : Movie) (percentage : ℚ) (scoreData : ScoreData)
    (favoriteGenres : List Int) (totalLikedMovies : Nat) : MatchBreakdown :=
  let matchedGenreIds := List.filter (fun id => favoriteGenres.contains id) movie.genre_ids
  let genreMatchNames := matchedGenreIds.map genreName
  let reasons : List String :=
    (if scoreData.genreMatchCount > 0 then
      ["Matches " ++ toString scoreData.genreMatchCount ++ " of your favorite genres"]
     else [])
    ++ (if movie.vote_average ≥ 15/2 then
      ["Highly rated (" ++ jsToFixed1 movie.vote_average ++ "/10)"]
     else [])
    ++ (if scoreData.ageCategory ≠ "Recent" then [scoreData.ageCategory ++ " film"] else [])
    ++ (if totalLikedMovies > 5 ∧ scoreData.genreMatchCount ≥ 2 then
      ["Strong genre alignment with your taste"]
     else [])
  { percentage := jsRound percentage
    genreMatches := scoreData.genreMatchCount
    genreMatchNames := genreMatchNames
    qualityScore := movie.vote_average
    ageCategory := scoreData.ageCategory
    totalLikedMovies := totalLikedMovies
    reasons := if reasons.length > 0 then reasons
               else ["Recommended based on your preferences"] }

/-- A JS `Map<number, Movie>` as an insertion-ordered association list. -/
abbrev IdMap := List (Int × Movie)

/-- `map.set(k, v)` for the movie-id map: updates the value in place when the
key exists (last write wins), otherwise appends (first-insertion order). -/
def IdMap.set (m : IdMap) (k : Int) (v : Movie) : IdMap :=
  if (List.any m (fun p => p.1 = k)) then
    List.map (fun p => if p.1 = k then (k, v) else p) m
  else
    m ++ [(k, v)]

/-- `Array.from(new Map(allMovies.map(m => [m.id, m])).values())`:
deduplicate by id; resulting order is first-occurrence order of each id,
and for a duplicated id the last-seen movie object is kept. -/
def dedupById (ms : List Movie) : List Movie :=
  (List.foldl (fun acc m => IdMap.set acc m.id m) ([] : IdMap) ms).map (fun p => p.2)

/-- An element of the `scoredMovies` array: the movie together with its raw
score and the score components. -/
structure ScoredMovie where
  movie : Movie
  score : ℚ
  rawScoreData : ScoreData
  deriving Repr, DecidableEq

/-- `MovieWithMatch`: a movie plus an optional `matchScore` field (absent on
the cold-start and fallback paths). -/
structure MovieWithMatch where
  movie : Movie
  matchScore : Option MatchBreakdown
  deriving Repr, DecidableEq

/-- JS `x?.score || d` on an optional score: `d` when the element is absent
or its score is `0` (falsy). -/
def jsOr (x : Option ℚ) (d : ℚ) : ℚ :=
  match x with
  | some v => if v = 0 then d else v
  | none => d

/-- JS `v || d` on a number: `d` exactly when `v = 0`. -/
def jsOrQ (v : ℚ) (d : ℚ) : ℚ := if v = 0 then d else v

/-- The environment of one `getRecommendations` / `getSimilarToLiked` call:
results of the external service calls, the ambient `JSON.parse`, `Math.log`
and current year, and the outcome of the randomized
`scoredMovies.sort(...)` (JS sort with the jittered comparator returns some
rearrangement of its input; which one depends on `Math.random`). -/
structure Env where
  favoriteGenres : List Int
  allRatings : Except String (List Rating)
  likedRatings : Except String (List Rating)
  popular : Nat → List Movie
  discoverResults : List (List Movie)
  sortScored : List ScoredMovie → List ScoredMovie
  parse : String → Except String SnapData
  log : ℚ → ℚ
  currentYear : Int

/-- The `unratedMovies.map(movie => ...)` step building `scoredMovies`;
a throw inside `calculateMovieScore` aborts the whole map. -/
def scoreMovies (log : ℚ → ℚ) (parse : String → Except String SnapData)
    (currentYear : Int) (favoriteGenres : List Int) (ratedMovies : List Rating)
    (tasteProfile : TasteProfile) : List Movie → Except String (List ScoredMovie)
  | [] => .ok []
  | movie :: rest =>
      match calculateMovieScore log parse currentYear movie favoriteGenres
          ratedMovies tasteProfile with
      | .error e => .error e
      | .ok scoreData =>
          match scoreMovies log parse currentYear favoriteGenres ratedMovies
              tasteProfile rest with
          | .error e => .error e
          | .ok tail =>
              .ok ({ movie := movie, score := scoreData.score,
                     rawScoreData := scoreData } :: tail)

/-- The windowed slice of lines 137–148: `slice(startIndex, startIndex+20)`
with `startIndex = ((page−1) mod 3) × 7`, padded from the items after
`endIndex` when short.  `page ≥ 1` as the spec requires of callers. -/
def selectWindow (page : Nat) (sorted : List ScoredMovie) : List ScoredMovie :=
  let startIndex := ((page - 1) % 3) * 7
  let endIndex := startIndex + 20
  let selectedMovies := (sorted.drop startIndex).take 20
  if selectedMovies.length < 20 then
    selectedMovies ++ (sorted.drop endIndex).take (20 - selectedMovies.length)
  else selectedMovies

/-- The per-item normalization of lines 151–166: min–max scale against the
supplied `minScore`/`scoreRange`, clamp to `[50, 99]`, and attach the
breakdown. -/
def attachMatch (favoriteGenres : List Int) (minScore scoreRange : ℚ)
    (likedCount : Nat) (item : ScoredMovie) : MovieWithMatch :=
  let normalizedScore := ((item.score - minScore) / scoreRange) * 100
  let percentage := jsMax 50 (jsMin 99 normalizedScore)
  { movie := item.movie
    matchScore := some (createMatchBreakdown item.movie percentage item.rawScoreData
      favoriteGenres likedCount) }

/-- Lines 132–167 of `getRecommendations`: `minScore`, `maxScore` and
`scoreRange` come from the first and last elements of the whole sorted
array (with the `|| 1` / `|| 0` falsy fallbacks), then the selected window
is mapped through `attachMatch`. -/
def selectAndNormalize (favoriteGenres : List Int) (likedCount : Nat)
    (page : Nat) (sorted : List ScoredMovie) : List MovieWithMatch :=
  let maxScore := jsOr (sorted.head?.map ScoredMovie.score) 1
  let minScore := jsOr (sorted.getLast?.map ScoredMovie.score) 0
  let scoreRange := jsOrQ (maxScore - minScore) 1
  (selectWindow page sorted).map (attachMatch favoriteGenres minScore scoreRange likedCount)

/-- The popular-movies result used on the cold-start and fallback paths:
`response.results` returned as-is, so no `matchScore` is attached. -/
def coldResult (env : Env) (page : Nat) : List MovieWithMatch :=
  (env.popular page).map (fun m => { movie := m, matchScore := none })

/-- The body of the `try` block of `getRecommendations(page)`. -/
def recommendCore (env : Env) (page : Nat) : Except String (List MovieWithMatch) :=
  let favoriteGenres := env.favoriteGenres
  if favoriteGenres.length = 0 then
    .ok (coldResult env page)
  else
    match env.allRatings with
    | .error e => .error e
    | .ok ratedMovies =>
        let ratedMovieIds := ratedMovies.map Rating.movie_id
        let allMovies := env.discoverResults.flatten
        let uniqueMovies := dedupById allMovies
        let unratedMovies := uniqueMovies.filter (fun m => ¬ ratedMovieIds.contains m.id)
        let likedMovies := ratedMovies.filter (fun r => r.rating = 1)
        match buildTasteProfile env.parse ratedMovies with
        | .error e => .error e
        | .ok tasteProfile =>
            match scoreMovies env.log env.parse env.currentYear favoriteGenres
                ratedMovies tasteProfile unratedMovies with
            | .error e => .error e
            | .ok scoredMovies =>
                let sorted := env.sortScored scoredMovies
                .ok (selectAndNormalize favoriteGenres likedMovies.length page sorted)

/-- `getRecommendations(page)`: the `try` body with the `catch` fallback to
the generic popular page (the fallback's own popular call is modelled as the
total `env.popular`). -/
def getRecommendations (env : Env) (page : Nat) : List MovieWithMatch :=
  match recommendCore env page with
  | .ok results => results
  | .error _ => coldResult env page

/-- The body of the `try` block of `getSimilarToLiked()`. -/
def getSimilarToLikedCore (env : Env) : Except String (List Movie) :=
  match env.likedRatings with
  | .error e => .error e
  | .ok likedMovies =>
      if likedMovies.length = 0 then .ok []
      else
        match likedMovies with
        | [] => .ok []
        | recentLiked :: _ =>
            match getSnapData env.parse recentLiked.movie_data with
            | .error e => .error e
            | .ok _movieData => .ok []

/-- `getSimilarToLiked()`: the `try` body with the `catch` that returns
`[]`. -/
def getSimilarToLiked (env : Env) : List Movie :=
  match getSimilarToLikedCore env with
  | .ok results => results
  | .error _ => []

/-- The score accumulated by `calculateMovieScore` before the dislike loop:
genre term + quality term + reliability term + popularity term + age bonus. -/
def preScore (log : ℚ → ℚ) (currentYear : Int) (movie : Movie)
    (favoriteGenres : List Int) : ℚ :=
  ((List.filter (fun id => favoriteGenres.contains id) movie.genre_ids).length : ℚ) * 100
    + movie.vote_average * 15
    + jsMin (log (movie.vote_count + 1) * 3) 30
    + jsMin (log (movie.popularity + 1) * 2) 20
    + (ageCategoryAndBonus (currentYear -
        (match movie.release_date with | some y => y | none => 0))).2

/-- The per-disliked-movie shared-genre count the penalty loop charges for:
the number of candidate genre ids also in the disliked snapshot's
`genre_ids`, and `0` when that field is absent (a parse failure is counted
as `0` here; the loop itself instead throws in that case). -/
def dislikeShared (parse : String → Except String SnapData) (movie : Movie)
    (disliked : Rating) : Nat :=
  match getSnapData parse disliked.movie_data with
  | .ok dd =>
      match dd.genre_ids with
      | some gs => (List.filter (fun id => gs.contains id) movie.genre_ids).length
      | none => 0
  | .error _ => 0

/-- Modelled from the spec (§4.4): "Normalize each selected candidate's raw
score into a percentage via linear min–max scaling against the min and max
scores within the selected batch (not the global candidate pool), then clamp
to the inclusive range [50, 99]", with the integer percentage obtained by the
same rounding the breakdown applies.  This is the comparison definition for
the normalization claim; the source instead scales against the whole sorted
pool. -/
def specBatchPercentage (batch : List ScoredMovie) (s : ℚ) : Int :=
  let scores := batch.map ScoredMovie.score
  let mn := match scores with | [] => 0 | a :: rest => rest.foldl jsMin a
  let mx := match scores with | [] => 0 | a :: rest => rest.foldl jsMax a
  jsRound (jsMax 50 (jsMin 99 ((s - mn) / (mx - mn) * 100)))

/-- A catalog movie with only the score-relevant fields varying. -/
def mkMovie (i : Int) (va : ℚ) (gs : List Int) (ry : Option Int) : Movie :=
  { id := i, title := "m", genre_ids := gs, vote_average := va,
    vote_count := 0, popularity := 0, release_date := ry }

/-- A `JSON.parse` model that fails on every string. -/
def parseFail : String → Except String SnapData := fun _ => .error "SyntaxError"

/-- A `JSON.parse` model that yields the empty record on every string. -/
def parseOkEmpty : String → Except String SnapData := fun _ => .ok SnapData.empty

/-- A `Math.log` model that is identically zero (its values are irrelevant
to every claim checked here). -/
def log0 : ℚ → ℚ := fun _ => 0

/-- A liked rating whose snapshot is an unparseable string. -/
def ratingC1 : Rating := { movie_id := 7, rating := 1, movie_data := some (.str "oops") }

/-- Environment exercising the error-fallback path: favorite genres exist,
but the liked rating's snapshot string fails to parse, so the taste-profile
build throws and the catch returns the popular page — which contains the
already-rated movie 7. -/
def envC1 : Env :=
  { favoriteGenres := [28]
    allRatings := .ok [ratingC1]
    likedRatings := .ok []
    popular := fun _ => [mkMovie 7 6 [28] (some 2026)]
    discoverResults := []
    sortScored := id
    parse := parseFail
    log := log0
    currentYear := 2026 }

/-- A successful personalized run: one rated movie (id 50) that also shows
up among the discover results, plus an unrated movie (id 60). -/
def envC1w : Env :=
  { favoriteGenres := [28]
    allRatings := .ok [{ movie_id := 50, rating := 1, movie_data := none }]
    likedRatings := .ok []
    popular := fun _ => []
    discoverResults := [[mkMovie 50 6 [28] (some 2026)], [mkMovie 60 7 [28] (some 2026)]]
    sortScored := id
    parse := parseOkEmpty
    log := log0
    currentYear := 2026 }

/-- The result list of the personalized run of `envC1w`. -/
def resultsC1w : List MovieWithMatch :=
  match recommendCore envC1w 1 with
  | .ok results => results
  | .error _ => []

/-- Nine candidates with pairwise distinct descending raw scores
(`score = 15 × vote_average` here): 90, 80, 70, 60, 55, 50, 45, 40, 30. -/
def c3movies : List Movie :=
  [mkMovie 1 6 [] (some 2026), mkMovie 2 (16/3) [] (some 2026),
   mkMovie 3 (14/3) [] (some 2026), mkMovie 4 4 [] (some 2026),
   mkMovie 5 (11/3) [] (some 2026), mkMovie 6 (10/3) [] (some 2026),
   mkMovie 7 3 [] (some 2026), mkMovie 8 (8/3) [] (some 2026),
   mkMovie 9 2 [] (some 2026)]

/-- Environment for a personalized run over the nine candidates of
`c3movies`, with empty rating history and an already-descending pool (the
identity sort outcome is then consistent with the comparator). -/
def envC3 : Env :=
  { favoriteGenres := [28]
    allRatings := .ok []
    likedRatings := .ok []
    popular := fun _ => []
    discoverResults := [c3movies]
    sortScored := id
    parse := parseOkEmpty
    log := log0
    currentYear := 2026 }

/-- The scored pool of the `envC3` run. -/
def scoredC3 : List ScoredMovie :=
  match scoreMovies log0 parseOkEmpty 2026 [28] [] TasteProfile.empty c3movies with
  | .ok scs => scs
  | .error _ => []

/-- Environment with an empty favorite-genre list but a non-empty popular
page, for the cold-start claim. -/
def envC4 : Env :=
  { favoriteGenres := []
    allRatings := .ok []
    likedRatings := .ok []
    popular := fun p => [mkMovie (100 + (p : Int)) 6 [28] (some 2026)]
    discoverResults := []
    sortScored := id
    parse := parseOkEmpty
    log := log0
    currentYear := 2026 }

/-- Environment in which `getAllRatings()` throws while favorite genres
exist; the popular page depends on the page number. -/
def envC5 : Env :=
  { favoriteGenres := [28]
    allRatings := .error "network"
    likedRatings := .ok []
    popular := fun p => [mkMovie (100 + (p : Int)) 6 [28] (some 2026)]
    discoverResults := []
    sortScored := id
    parse := parseOkEmpty
    log := log0
    currentYear := 2026 }

/-- Environment whose only discover result is a movie the user has already
rated: the deduplicated unrated pool is empty while the popular page is
not. -/
def envC6 : Env :=
  { favoriteGenres := [28]
    allRatings := .ok [{ movie_id := 1, rating := 1, movie_data := none }]
    likedRatings := .ok []
    popular := fun _ => [mkMovie 99 7 [28] (some 2026)]
    discoverResults := [[mkMovie 1 6 [28] (some 2026)]]
    sortScored := id
    parse := parseOkEmpty
    log := log0
    currentYear := 2026 }

/-- A candidate whose age at `currentYear = 2026` is exactly 40. -/
def movieAge40 : Movie := mkMovie 1 0 [] (some 1986)

/-- The snapshot record of `ratingGoodSnap`: only a director is present. -/
def snapDirX : SnapData :=
  { keywords := none, director := some "X", actors := none,
    production_company := none, genre_ids := none }

/-- A liked rating with a well-formed object snapshot naming a director. -/
def ratingGoodSnap : Rating :=
  { movie_id := 1, rating := 1, movie_data := some (.obj snapDirX) }

/-- A liked rating whose snapshot is a string that fails to parse. -/
def ratingBadSnap : Rating :=
  { movie_id := 2, rating := 1, movie_data := some (.str "oops") }

/-- A placeholder result element used only as a `headD` default. -/
def defaultMW : MovieWithMatch := { movie := mkMovie 0 0 [] none, matchScore := none }

/-- The first element of the `envC3` page-2 result (concretely computable). -/
def mwC2 : MovieWithMatch := (getRecommendations envC3 2).headD defaultMW

/-- The breakdown carried by `mwC2`. -/
def mbC2 : MatchBreakdown :=
  match mwC2.matchScore with
  | some mb => mb
  | none => createMatchBreakdown (mkMovie 0 0 [] none) 0
      { score := 0, genreMatchCount := 0, ageCategory := "Recent", qualityScore := 0 } [] 0

/-- The first element of `resultsC1w`. -/
def mwC1 : MovieWithMatch := resultsC1w.headD defaultMW

/-- The first element of the page-2 selection over `scoredC3`. -/
def mwC3 : MovieWithMatch := (selectAndNormalize [28] 0 2 scoredC3).headD defaultMW

/-- The breakdown carried by `mwC3`. -/
def mbC3 : MatchBreakdown :=
  match mwC3.matchScore with
  | some mb => mb
  | none => createMatchBreakdown (mkMovie 0 0 [] none) 0
      { score := 0, genreMatchCount := 0, ageCategory := "Recent", qualityScore := 0 } [] 0

/-- A disliked-movie snapshot carrying exactly the two genre ids 28 and 27. -/
def snapDis : SnapData :=
  { keywords := none, director := none, actors := none,
    production_company := none, genre_ids := some [28, 27] }

/-- A disliked rating whose snapshot is `snapDis`. -/
def ratingDis : Rating := { movie_id := 3, rating := -1, movie_data := some (.obj snapDis) }

/-- A candidate sharing both genre ids of `snapDis`. -/
def movieA7 : Movie := mkMovie 10 6 [28, 27] (some 2026)

/-- An otherwise-identical candidate sharing neither genre id of `snapDis`. -/
def movieB7 : Movie := mkMovie 11 6 [99, 18] (some 2026)

/-- The score data of `movieA7` against the single dislike `ratingDis`. -/
def sdA7 : ScoreData :=
  match calculateMovieScore log0 parseOkEmpty 2026 movieA7 [] [ratingDis] TasteProfile.empty with
  | .ok sd => sd
  | .error _ => { score := 0, genreMatchCount := 0, ageCategory := "Recent", qualityScore := 0 }

/-- The score data of `movieB7` against the single dislike `ratingDis`. -/
def sdB7 : ScoreData :=
  match calculateMovieScore log0 parseOkEmpty 2026 movieB7 [] [ratingDis] TasteProfile.empty with
  | .ok sd => sd
  | .error _ => { score := 0, genreMatchCount := 0, ageCategory := "Recent", qualityScore := 0 }

/-- `jsMin` is the lattice `min` on `ℚ`. -/
theorem jsMin_eq (a b : ℚ) : jsMin a b = min a b := by
  rw [jsMin, min_def]

/-- `jsMax` is the lattice `max` on `ℚ`. -/
theorem jsMax_eq (a b : ℚ) : jsMax a b = max a b := by
  rw [jsMax, max_def]

/-- Rounding the clamped percentage `jsMax 50 (jsMin 99 x)` keeps it in
`[50, 99]`. -/
theorem jsRound_clamp_bounds (x : ℚ) :
    50 ≤ jsRound (jsMax 50 (jsMin 99 x)) ∧ jsRound (jsMax 50 (jsMin 99 x)) ≤ 99 := by
  rw [jsMax_eq, jsMin_eq]
  unfold jsRound
  constructor
  · have h : (50 : ℚ) ≤ max 50 (min 99 x) := le_max_left _ _
    have h2 : ((50 : Int) : ℚ) ≤ max 50 (min 99 x) + 1/2 := by push_cast; linarith
    exact Int.le_floor.mpr h2
  · have h : max 50 (min 99 x) ≤ 99 := max_le (by norm_num) (min_le_left _ _)
    have h2 : max 50 (min 99 x) + 1/2 < ((100 : Int) : ℚ) := by push_cast; linarith
    have h3 := Int.floor_lt.mpr h2
    omega

/-- Every element of the selected window comes from the sorted pool. -/
theorem mem_selectWindow {page : Nat} {sorted : List ScoredMovie} {x : ScoredMovie}
    (h : x ∈ selectWindow page sorted) : x ∈ sorted := by
  simp only [selectWindow] at h
  split at h
  · rcases List.mem_append.mp h with h1 | h2
    · exact List.mem_of_mem_drop (List.mem_of_mem_take h1)
    · exact List.mem_of_mem_drop (List.mem_of_mem_take h2)
  · exact List.mem_of_mem_drop (List.mem_of_mem_take h)

/-- On success, the scoring map keeps exactly the input movies, in order. -/
theorem scoreMovies_ok_map_movie (log : ℚ → ℚ) (parse : String → Except String SnapData)
    (currentYear : Int) (favs : List Int) (rated : List Rating) (profile : TasteProfile) :
    ∀ (ms : List Movie) (scs : List ScoredMovie),
      scoreMovies log parse currentYear favs rated profile ms = .ok scs →
      scs.map ScoredMovie.movie = ms := by
  intro ms
  induction ms with
  | nil =>
      intro scs h
      unfold scoreMovies at h
      cases h
      rfl
  | cons m rest ih =>
      intro scs h
      unfold scoreMovies at h
      cases hc : calculateMovieScore log parse currentYear m favs rated profile with
      | error e => rw [hc] at h; cases h
      | ok sd =>
          rw [hc] at h
          cases hr : scoreMovies log parse currentYear favs rated profile rest with
          | error e => rw [hr] at h; cases h
          | ok tail =>
              rw [hr] at h
              cases h
              simp [ih tail hr]

/-- The cold-start branch of `getRecommendations`: with no favorite genres
the popular page is returned verbatim with no match attached.  (Claim C4.) -/
theorem C4_cold_start (env : Env) (page : Nat) (h : env.favoriteGenres = []) :
    getRecommendations env page
      = (env.popular page).map (fun m => { movie := m, matchScore := none }) := by
  unfold getRecommendations recommendCore
  rw [h]
  rfl

/-- Witness for C4 at a concrete environment and page 1. -/
theorem C4_witness :
    getRecommendations envC4 1
      = (envC4.popular 1).map (fun m => { movie := m, matchScore := none }) :=
  C4_cold_start envC4 1 (by decide)

/-- When `getAllRatings()` throws while favorite genres exist, the exception
is caught and the generic popular page for the requested page is returned.
(Claim C5.) -/
theorem C5_fallback_on_store_failure (env : Env) (page : Nat) (e : String)
    (hfav : env.favoriteGenres ≠ []) (hrat : env.allRatings = .error e) :
    getRecommendations env page
      = (env.popular page).map (fun m => { movie := m, matchScore := none }) := by
  unfold getRecommendations recommendCore
  have hlen : ¬ env.favoriteGenres.length = 0 := by
    intro h0
    exact hfav (List.length_eq_zero.mp h0)
  rw [if_neg hlen, hrat]
  rfl

/-- Witness for C5: a concrete failing store, at page 2 as in the spec
scenario. -/
theorem C5_witness :
    getRecommendations envC5 2
      = (envC5.popular 2).map (fun m => { movie := m, matchScore := none }) :=
  C5_fallback_on_store_failure envC5 2 "network" (by decide) (by decide)

/-- The age ladder of `calculateMovieScore` at the boundary: a movie of age
exactly 40 falls through both the `> 40` and the `> 10 && < 40` branches and
is categorized `"Recent"` with no bonus, while ages 39 and 41 receive the
neighbouring bonuses.  (Claim C8: the code's behaviour at the failing
input.) -/
theorem C8_age_forty_gap :
    ageCategoryAndBonus 40 = ("Recent", 0) ∧
    ageCategoryAndBonus 39 = ("Modern Classic", 15) ∧
    ageCategoryAndBonus 41 = ("Classic", 20) ∧
    calculateMovieScore log0 parseOkEmpty 2026 movieAge40 [] [] TasteProfile.empty
      = Except.ok { score := 0, genreMatchCount := 0, ageCategory := "Recent",
                    qualityScore := 0 } := by
  with_unfolding_all decide

/-- Case analysis of a successful `recommendCore` run: either the cold-start
branch fired (no favorite genres), or the full personalized pipeline ran:
ratings fetched, profile built, unrated pool scored, and the sorted pool
selected and normalized. -/
theorem recommendCore_ok_shape (env : Env) (page : Nat) (results : List MovieWithMatch)
    (h : recommendCore env page = .ok results) :
    (env.favoriteGenres.length = 0 ∧ results = coldResult env page) ∨
    ∃ ratedMovies tasteProfile scoredMovies,
      env.allRatings = .ok ratedMovies ∧
      buildTasteProfile env.parse ratedMovies = .ok tasteProfile ∧
      scoreMovies env.log env.parse env.currentYear env.favoriteGenres ratedMovies
        tasteProfile
        ((dedupById env.discoverResults.flatten).filter
          (fun m => ¬ ((ratedMovies.map Rating.movie_id).contains m.id))) = .ok scoredMovies ∧
      results = selectAndNormalize env.favoriteGenres
        (ratedMovies.filter (fun r => r.rating = 1)).length page
        (env.sortScored scoredMovies) := by
  unfold recommendCore at h
  by_cases h0 : env.favoriteGenres.length = 0
  · rw [if_pos h0] at h
    cases h
    exact Or.inl ⟨h0, rfl⟩
  · rw [if_neg h0] at h
    cases hr : env.allRatings with
    | error e => rw [hr] at h; cases h
    | ok ratedMovies =>
        rw [hr] at h
        dsimp only at h
        cases hp : buildTasteProfile env.parse ratedMovies with
        | error e => rw [hp] at h; cases h
        | ok tasteProfile =>
            rw [hp] at h
            dsimp only at h
            cases hs : scoreMovies env.log env.parse env.currentYear env.favoriteGenres
                ratedMovies tasteProfile
                ((dedupById env.discoverResults.flatten).filter
                  (fun m => ¬ ((ratedMovies.map Rating.movie_id).contains m.id))) with
            | error e => rw [hs] at h; cases h
            | ok scoredMovies =>
                rw [hs] at h
                cases h
                exact Or.inr ⟨ratedMovies, tasteProfile, scoredMovies, rfl, hp, hs, rfl⟩

/-- The percentage attached by `attachMatch` is the rounded clamp of the
min–max formula over the supplied `minScore`/`scoreRange`. -/
theorem attachMatch_percentage (favs : List Int) (mn rg : ℚ) (lc : Nat)
    (item : ScoredMovie) (mb : MatchBreakdown)
    (h : (attachMatch favs mn rg lc item).matchScore = some mb) :
    mb.percentage = jsRound (jsMax 50 (jsMin 99 ((item.score - mn) / rg * 100))) := by
  simp only [attachMatch] at h
  rw [← Option.some.inj h]
  rfl

/-- Every breakdown produced by `getRecommendations` has an integer
percentage between 50 and 99 inclusive, for every environment (hence for
every score distribution), every page, and every sort outcome.
(Claim C2.) -/
theorem C2_percentage_bounds (env : Env) (page : Nat)
    (mw : MovieWithMatch) (mb : MatchBreakdown)
    (hmw : mw ∈ getRecommendations env page)
    (hmb : mw.matchScore = some mb) :
    50 ≤ mb.percentage ∧ mb.percentage ≤ 99 := by
  unfold getRecommendations at hmw
  cases hres : recommendCore env page with
  | error e =>
      rw [hres] at hmw
      dsimp only at hmw
      unfold coldResult at hmw
      obtain ⟨m, _, hmeq⟩ := List.mem_map.mp hmw
      rw [← hmeq] at hmb
      exact Option.noConfusion hmb
  | ok results =>
      rw [hres] at hmw
      dsimp only at hmw
      rcases recommendCore_ok_shape env page results hres with ⟨_, hcold⟩ |
        ⟨rated, prof, scs, _, _, _, hsel⟩
      · rw [hcold] at hmw
        unfold coldResult at hmw
        obtain ⟨m, _, hmeq⟩ := List.mem_map.mp hmw
        rw [← hmeq] at hmb
        exact Option.noConfusion hmb
      · rw [hsel] at hmw
        unfold selectAndNormalize at hmw
        obtain ⟨item, _, hmeq⟩ := List.mem_map.mp hmw
        rw [← hmeq] at hmb
        rw [attachMatch_percentage _ _ _ _ _ _ hmb]
        exact jsRound_clamp_bounds _

/-- Witness for C2: the first element of a concrete personalized run. -/
theorem C2_witness : 50 ≤ mbC2.percentage ∧ mbC2.percentage ≤ 99 :=
  C2_percentage_bounds envC3 2 mwC2 mbC2 (by with_unfolding_all decide)
    (by with_unfolding_all decide)

/-- On a successful personalized run (favorite genres present, ratings
fetched, pipeline completed), no returned movie id appears in the rating
history.  (Claim C1, amended: restricted to the personalized path; the
cold-start and error-fallback paths return the popular page unfiltered.) -/
theorem C1_personalized_no_self_recommendation (env : Env) (page : Nat)
    (ratedMovies : List Rating) (results : List MovieWithMatch) (mw : MovieWithMatch)
    (hsort : ∀ (l : List ScoredMovie) (x : ScoredMovie), x ∈ env.sortScored l → x ∈ l)
    (hfav : env.favoriteGenres ≠ [])
    (hrat : env.allRatings = .ok ratedMovies)
    (hok : recommendCore env page = .ok results)
    (hmw : mw ∈ results) :
    getRecommendations env page = results ∧
    mw.movie.id ∉ ratedMovies.map Rating.movie_id := by
  constructor
  · unfold getRecommendations
    rw [hok]
  · rcases recommendCore_ok_shape env page results hok with ⟨h0, _⟩ |
      ⟨rated, prof, scs, hr, hp, hs, hsel⟩
    · exact absurd (List.length_eq_zero.mp h0) hfav
    · rw [hrat] at hr
      injection hr with hr
      subst hr
      rw [hsel] at hmw
      unfold selectAndNormalize at hmw
      obtain ⟨item, hitem, hmeq⟩ := List.mem_map.mp hmw
      have hmovie : mw.movie = item.movie := by rw [← hmeq]; rfl
      have hin : item ∈ scs := hsort _ _ (mem_selectWindow hitem)
      have hmap := scoreMovies_ok_map_movie env.log env.parse env.currentYear
        env.favoriteGenres ratedMovies prof _ scs hs
      have hpool : item.movie ∈ (dedupById env.discoverResults.flatten).filter
          (fun m => ¬ ((ratedMovies.map Rating.movie_id).contains m.id)) := by
        rw [← hmap]
        exact List.mem_map_of_mem ScoredMovie.movie hin
      have hfilter := (List.mem_filter.mp hpool).2
      simp only [decide_eq_true_eq] at hfilter
      rw [hmovie]
      intro hmem
      exact hfilter (List.elem_eq_true_of_mem hmem)

/-- Counterexample to C1 as stated: on the error-fallback path (the taste
profile build throws on an unparseable snapshot), the returned popular page
contains movie 7, whose id appears in the rating history returned by
`getAllRatings`. -/
theorem C1_counterexample :
    envC1.allRatings = Except.ok [ratingC1] ∧
    ratingC1.movie_id = 7 ∧
    (getRecommendations envC1 1).map (fun mw => mw.movie.id) = [7] := by
  with_unfolding_all decide

/-- Witness for C1 on a concrete successful personalized run. -/
theorem C1_witness :
    getRecommendations envC1w 1 = resultsC1w ∧
    mwC1.movie.id ∉ ([{ movie_id := 50, rating := 1, movie_data := none }] :
      List Rating).map Rating.movie_id :=
  C1_personalized_no_self_recommendation envC1w 1
    [{ movie_id := 50, rating := 1, movie_data := none }] resultsC1w mwC1
    (fun _ _ h => h) (by decide) (by with_unfolding_all decide)
    (by with_unfolding_all decide) (by with_unfolding_all decide)

/-- Accumulating the empty snapshot record leaves the profile unchanged. -/
theorem accumulateSnap_empty (profile : TasteProfile) :
    accumulateSnap profile SnapData.empty = profile := rfl

/-- `buildTasteProfile` and liked-movie snapshots: a missing snapshot is
treated as the empty record (contributing nothing), a parseable string
snapshot behaves exactly like the parsed object snapshot, and an
unparseable non-empty string snapshot makes the whole build throw with the
parse error — the profile accumulated from the other liked ratings is not
returned.  (Claim C9, amended: the unparseable case aborts instead of
being tolerated.) -/
theorem C9_snapshot_tolerance (parse : String → Except String SnapData)
    (r : Rating) (rest : List Rating) (s : String) (d : SnapData) (e : String)
    (hliked : r.rating = 1) :
    (r.movie_data = none →
        buildTasteProfile parse (r :: rest) = buildTasteProfile parse rest) ∧
    (r.movie_data = some (.str s) → s ≠ "" → parse s = .ok d →
        buildTasteProfile parse (r :: rest)
          = buildTasteProfile parse ({ r with movie_data := some (.obj d) } :: rest)) ∧
    (r.movie_data = some (.str s) → s ≠ "" → parse s = .error e →
        buildTasteProfile parse (r :: rest) = .error e) := by
  refine ⟨?_, ?_, ?_⟩
  · intro hmd
    simp [buildTasteProfile, List.filter_cons, hliked, accumulateLiked, hmd,
      getSnapData, accumulateSnap_empty]
  · intro hmd hs hp
    simp [buildTasteProfile, List.filter_cons, hliked, accumulateLiked, hmd,
      getSnapData, hs, hp]
  · intro hmd hs hp
    simp [buildTasteProfile, List.filter_cons, hliked, accumulateLiked, hmd,
      getSnapData, hs, hp]

/-- Counterexample to C9 as stated: with a liked rating whose string
snapshot does not parse, `buildTasteProfile` returns the parse error rather
than the profile accumulated from the other liked rating. -/
theorem C9_counterexample :
    ratingBadSnap.rating = 1 ∧
    ratingBadSnap.movie_data = some (.str "oops") ∧
    parseFail "oops" = .error "SyntaxError" ∧
    buildTasteProfile parseFail [ratingGoodSnap, ratingBadSnap]
      = .error "SyntaxError" := by
  with_unfolding_all decide

/-- Witness for C9 at a concrete rating list: the unparseable-string case
fires and the build aborts. -/
theorem C9_witness :
    (ratingBadSnap.movie_data = none →
        buildTasteProfile parseFail (ratingBadSnap :: [ratingGoodSnap])
          = buildTasteProfile parseFail [ratingGoodSnap]) ∧
    (ratingBadSnap.movie_data = some (.str "oops") → "oops" ≠ "" →
        parseFail "oops" = .ok SnapData.empty →
        buildTasteProfile parseFail (ratingBadSnap :: [ratingGoodSnap])
          = buildTasteProfile parseFail
              ({ ratingBadSnap with movie_data := some (.obj SnapData.empty) }
                :: [ratingGoodSnap])) ∧
    (ratingBadSnap.movie_data = some (.str "oops") → "oops" ≠ "" →
        parseFail "oops" = .error "SyntaxError" →
        buildTasteProfile parseFail (ratingBadSnap :: [ratingGoodSnap])
          = .error "SyntaxError") :=
  C9_snapshot_tolerance parseFail ratingBadSnap [ratingGoodSnap] "oops"
    SnapData.empty "SyntaxError" (by decide)

/-- When favorite genres exist but the deduplicated unrated candidate pool
is empty (and the profile build succeeds), `getRecommendations` returns the
empty list — it does not fall back to the popular page.  (Claim C6,
amended: the code has no empty-pool fallback.) -/
theorem C6_empty_pool_returns_empty_list (env : Env) (page : Nat)
    (ratedMovies : List Rating) (profile : TasteProfile)
    (hsort : ∀ (l : List ScoredMovie) (x : ScoredMovie), x ∈ env.sortScored l → x ∈ l)
    (hfav : env.favoriteGenres ≠ [])
    (hrat : env.allRatings = .ok ratedMovies)
    (hprof : buildTasteProfile env.parse ratedMovies = .ok profile)
    (hempty : (dedupById env.discoverResults.flatten).filter
        (fun m => ¬ ((ratedMovies.map Rating.movie_id).contains m.id)) = []) :
    getRecommendations env page = [] := by
  have hnil : env.sortScored [] = [] := by
    cases hh : env.sortScored [] with
    | nil => rfl
    | cons y ys =>
        exact absurd (hsort [] y (hh ▸ List.mem_cons_self y ys)) (List.not_mem_nil y)
  have hlen : ¬ env.favoriteGenres.length = 0 := fun h0 => hfav (List.length_eq_zero.mp h0)
  unfold getRecommendations recommendCore
  rw [if_neg hlen, hrat]
  dsimp only
  rw [hprof]
  dsimp only
  rw [hempty]
  dsimp only [scoreMovies]
  rw [hnil]
  simp [selectAndNormalize, selectWindow]

/-- Counterexample to C6 as stated: a concrete environment whose unrated
pool is empty; the personalized path returns `[]` while the popular page is
non-empty, so no fallback to the popular page happened. -/
theorem C6_counterexample :
    envC6.favoriteGenres ≠ [] ∧
    (dedupById envC6.discoverResults.flatten).filter
        (fun m => ¬ ((([{ movie_id := 1, rating := 1, movie_data := none }] :
          List Rating).map Rating.movie_id).contains m.id)) = [] ∧
    getRecommendations envC6 1 = [] ∧
    (envC6.popular 1).map
        (fun m => ({ movie := m, matchScore := none } : MovieWithMatch)) ≠ [] := by
  with_unfolding_all decide

/-- Witness for C6 at the concrete empty-pool environment. -/
theorem C6_witness : getRecommendations envC6 1 = [] :=
  C6_empty_pool_returns_empty_list envC6 1
    [{ movie_id := 1, rating := 1, movie_data := none }] TasteProfile.empty
    (fun _ _ h => h) (by decide) (by with_unfolding_all decide)
    (by with_unfolding_all decide) (by with_unfolding_all decide)

/-- Every percentage returned by the selection/normalization stage is the
min–max formula taken against the min and max of the WHOLE sorted pool —
the last and first elements of the sorted array (with the `|| 0` / `|| 1`
falsy fallbacks) — applied to some selected item's raw score.  (Claim C3,
amended: the scaling bounds come from the global scored pool, not from the
selected batch.) -/
theorem C3_global_pool_normalization (favs : List Int) (likedCount page : Nat)
    (sorted : List ScoredMovie) (mw : MovieWithMatch) (mb : MatchBreakdown)
    (hmw : mw ∈ selectAndNormalize favs likedCount page sorted)
    (hmb : mw.matchScore = some mb) :
    mb.percentage ∈ (selectWindow page sorted).map (fun item =>
      jsRound (jsMax 50 (jsMin 99
        ((item.score - jsOr (sorted.getLast?.map ScoredMovie.score) 0)
          / jsOrQ (jsOr (sorted.head?.map ScoredMovie.score) 1
              - jsOr (sorted.getLast?.map ScoredMovie.score) 0) 1 * 100)))) := by
  unfold selectAndNormalize at hmw
  obtain ⟨item, hitem, hmeq⟩ := List.mem_map.mp hmw
  rw [← hmeq] at hmb
  exact List.mem_map.mpr ⟨item, hitem, (attachMatch_percentage _ _ _ _ _ _ hmb).symm⟩

/-- Counterexample to C3 as stated: in a concrete page-2 run over nine
scored candidates, the code's returned percentages ([50, 50], scaled
against the global pool) differ from the within-batch min–max percentages
the spec prescribes ([99, 50]). -/
theorem C3_counterexample :
    scoreMovies log0 parseOkEmpty 2026 [28] [] TasteProfile.empty c3movies
      = .ok scoredC3 ∧
    recommendCore envC3 2 = .ok (selectAndNormalize [28] 0 2 scoredC3) ∧
    ((getRecommendations envC3 2).map
        (fun mw => (mw.matchScore.map MatchBreakdown.percentage).getD 0)) = [50, 50] ∧
    ((selectWindow 2 scoredC3).map
        (fun item => specBatchPercentage (selectWindow 2 scoredC3) item.score)) = [99, 50] ∧
    ((getRecommendations envC3 2).map
        (fun mw => (mw.matchScore.map MatchBreakdown.percentage).getD 0))
      ≠ ((selectWindow 2 scoredC3).map
        (fun item => specBatchPercentage (selectWindow 2 scoredC3) item.score)) := by
  with_unfolding_all decide

/-- Witness for C3's amended theorem on the concrete page-2 run. -/
theorem C3_witness :
    mbC3.percentage ∈ (selectWindow 2 scoredC3).map (fun item =>
      jsRound (jsMax 50 (jsMin 99
        ((item.score - jsOr (scoredC3.getLast?.map ScoredMovie.score) 0)
          / jsOrQ (jsOr (scoredC3.head?.map ScoredMovie.score) 1
              - jsOr (scoredC3.getLast?.map ScoredMovie.score) 0) 1 * 100)))) :=
  C3_global_pool_normalization [28] 0 2 scoredC3 mwC3 mbC3
    (by with_unfolding_all decide) (by with_unfolding_all decide)

/-- The dislike loop subtracts exactly `15 × sharedCount` once per disliked
rating it traverses. -/
theorem applyDislikePenalties_ok (parse : String → Except String SnapData)
    (movie : Movie) :
    ∀ (ds : List Rating) (s t : ℚ),
      applyDislikePenalties parse movie s ds = .ok t →
      t = s - 15 * ((ds.map (fun d => (dislikeShared parse movie d : ℚ))).sum) := by
  intro ds
  induction ds with
  | nil =>
      intro s t h
      unfold applyDislikePenalties at h
      cases h
      simp
  | cons d rest ih =>
      intro s t h
      unfold applyDislikePenalties at h
      cases hd : getSnapData parse d.movie_data with
      | error e => rw [hd] at h; cases h
      | ok dd =>
          rw [hd] at h
          dsimp only at h
          cases hg : dd.genre_ids with
          | some gs =>
              rw [hg] at h
              have hrest := ih _ _ h
              have hds : (dislikeShared parse movie d : ℚ)
                  = ((List.filter (fun id => gs.contains id) movie.genre_ids).length : ℚ) := by
                unfold dislikeShared
                rw [hd]
                dsimp only
                rw [hg]
              rw [List.map_cons, List.sum_cons, hds, hrest]
              ring
          | none =>
              rw [hg] at h
              have hrest := ih _ _ h
              have hds : (dislikeShared parse movie d : ℚ) = 0 := by
                unfold dislikeShared
                rw [hd]
                dsimp only
                rw [hg]
                norm_num
              rw [List.map_cons, List.sum_cons, hds, hrest]
              ring

/-- On success, `calculateMovieScore` returns the pre-penalty score minus
`15 × sharedCount` summed over every disliked rating in the history. -/
theorem calculateMovieScore_ok_score (log : ℚ → ℚ)
    (parse : String → Except String SnapData) (year : Int) (movie : Movie)
    (favs : List Int) (rated : List Rating) (profile : TasteProfile) (sd : ScoreData)
    (h : calculateMovieScore log parse year movie favs rated profile = .ok sd) :
    sd.score = preScore log year movie favs
      - 15 * (((rated.filter (fun r => r.rating = -1)).map
          (fun d => (dislikeShared parse movie d : ℚ))).sum) := by
  unfold calculateMovieScore at h
  dsimp only at h
  cases hap : applyDislikePenalties parse movie
      (preScore log year movie favs) (rated.filter (fun r => r.rating = -1)) with
  | error e =>
      rw [show preScore log year movie favs
          = ((List.filter (fun id => favs.contains id) movie.genre_ids).length : ℚ) * 100
            + movie.vote_average * 15
            + jsMin (log (movie.vote_count + 1) * 3) 30
            + jsMin (log (movie.popularity + 1) * 2) 20
            + (ageCategoryAndBonus (year -
                (match movie.release_date with | some y => y | none => 0))).2 from rfl] at hap
      rw [hap] at h
      cases h
  | ok t =>
      rw [show preScore log year movie favs
          = ((List.filter (fun id => favs.contains id) movie.genre_ids).length : ℚ) * 100
            + movie.vote_average * 15
            + jsMin (log (movie.vote_count + 1) * 3) 30
            + jsMin (log (movie.popularity + 1) * 2) 20
            + (ageCategoryAndBonus (year -
                (match movie.release_date with | some y => y | none => 0))).2 from rfl] at hap
      rw [hap] at h
      cases h
      exact applyDislikePenalties_ok parse movie _ _ _ hap

/-- The dislike penalty of `calculateMovieScore`: the final score is the
pre-penalty score minus `15 × (shared genre count)` accumulated once per
disliked movie in the rating history; in particular, against a single
disliked movie with exactly two snapshot genre ids, a candidate sharing
both scores exactly 30 points below an otherwise-identical candidate (same
quality, votes, popularity, release date, and favorite-genre match count)
sharing neither.  (Claim C7.) -/
theorem C7_dislike_penalty :
    (∀ (log : ℚ → ℚ) (parse : String → Except String SnapData) (year : Int)
        (movie : Movie) (favs : List Int) (rated : List Rating)
        (profile : TasteProfile) (sd : ScoreData),
      calculateMovieScore log parse year movie favs rated profile = .ok sd →
      sd.score = preScore log year movie favs
        - 15 * (((rated.filter (fun r => r.rating = -1)).map
            (fun d => (dislikeShared parse movie d : ℚ))).sum)) ∧
    (∀ (log : ℚ → ℚ) (parse : String → Except String SnapData) (year : Int)
        (favs : List Int) (A B : Movie) (d : Rating) (dd : SnapData) (g1 g2 : Int)
        (profile : TasteProfile) (sdA sdB : ScoreData),
      A.vote_average = B.vote_average →
      A.vote_count = B.vote_count →
      A.popularity = B.popularity →
      A.release_date = B.release_date →
      (List.filter (fun id => favs.contains id) A.genre_ids).length
        = (List.filter (fun id => favs.contains id) B.genre_ids).length →
      d.rating = -1 →
      getSnapData parse d.movie_data = .ok dd →
      dd.genre_ids = some [g1, g2] →
      (List.filter (fun id => ([g1, g2] : List Int).contains id) A.genre_ids).length = 2 →
      (List.filter (fun id => ([g1, g2] : List Int).contains id) B.genre_ids).length = 0 →
      calculateMovieScore log parse year A favs [d] profile = .ok sdA →
      calculateMovieScore log parse year B favs [d] profile = .ok sdB →
      sdA.score = sdB.score - 30) := by
  constructor
  · intro log parse year movie favs rated profile sd h
    exact calculateMovieScore_ok_score log parse year movie favs rated profile sd h
  · intro log parse year favs A B d dd g1 g2 profile sdA sdB
      hva hvc hpop hrd hmatch hdneg hdd hgs hA2 hB0 hA hB
    have h1 := calculateMovieScore_ok_score log parse year A favs [d] profile sdA hA
    have h2 := calculateMovieScore_ok_score log parse year B favs [d] profile sdB hB
    have hfil : (([d] : List Rating).filter (fun r => r.rating = -1)) = [d] := by
      simp [List.filter_cons, hdneg]
    rw [hfil] at h1 h2
    have hsharedA : (dislikeShared parse A d : ℚ) = 2 := by
      unfold dislikeShared
      rw [hdd]
      dsimp only
      rw [hgs]
      dsimp only
      rw [hA2]
      norm_num
    have hsharedB : (dislikeShared parse B d : ℚ) = 0 := by
      unfold dislikeShared
      rw [hdd]
      dsimp only
      rw [hgs]
      dsimp only
      rw [hB0]
      norm_num
    have hpre : preScore log year A favs = preScore log year B favs := by
      unfold preScore
      rw [hva, hvc, hpop, hrd, hmatch]
    simp only [List.map_cons, List.map_nil, List.sum_cons, List.sum_nil] at h1 h2
    rw [hsharedA] at h1
    rw [hsharedB] at h2
    rw [h1, h2, hpre]
    ring

/-- Witness for C7: two concrete candidates against one concrete dislike;
the sharer scores exactly 30 below the non-sharer. -/
theorem C7_witness : sdA7.score = sdB7.score - 30 :=
  C7_dislike_penalty.2 log0 parseOkEmpty 2026 [] movieA7 movieB7 ratingDis snapDis
    28 27 TasteProfile.empty sdA7 sdB7
    (by with_unfolding_all decide) (by with_unfolding_all decide)
    (by with_unfolding_all decide) (by with_unfolding_all decide)
    (by with_unfolding_all decide) (by decide) (by decide) (by decide)
    (by decide) (by decide)
    (by with_unfolding_all decide) (by with_unfolding_all decide)

/-- `getSimilarToLiked` returns the empty list in every environment: with no
liked movies, with any snapshot shape on the most recent liked movie, and
with a throwing store call or unparseable snapshot (caught).  (Claim C10.) -/
theorem C10_similar_always_empty (env : Env) : getSimilarToLiked env = [] := by
  unfold getSimilarToLiked getSimilarToLikedCore
  cases h : env.likedRatings with
  | error e => rfl
  | ok liked =>
      cases liked with
      | nil => rfl
      | cons r rest =>
          simp only [List.length_cons]
          cases hs : getSnapData env.parse r.movie_data with
          | error e => simp [hs]
          | ok d => simp [hs]

end MovieRec
